import Mathlib

/-!
Shallow embedding of `src/index.js` of the `thetvdb-client` library
(class `TheTVDbClient`): the request pipeline installed on the
superagent agent in the constructor, `authenticate`, the retry wrapper
`_doRequest`, and representative endpoint methods
(`getLanguages`, `getSerie`, `getSerieHead`, `getUpdatedQuery`).

Modelling conventions:
* JS nullable strings (`null`/`undefined` vs a string) are `Option String`;
  JS truthiness of such a value is `jsTruthyStr` (`null`, `undefined` and
  `""` are falsy).
* The HTTP transport is an environment: each call of the wrapper consumes
  at most one login outcome and at most two request-factory outcomes,
  each an `Except` (a rejected promise is `Except.error`).  superagent
  rejects on non-2xx statuses, so an HTTP-level failure is also
  `Except.error`.
* Agent-level `use` plugins are applied by superagent when the request
  object is created (the agent replays its defaults on each new request),
  hence before the endpoint method's chained `.set` calls; a caller's
  `.set` therefore runs after the middleware chain.  Caller-side header
  writes are modelled as a list applied after `agentRequest`.
* The proxy middleware only sets the proxy of the request and touches
  neither URL nor headers; it is not modelled (no claim concerns it).
* Options objects are modelled with absent-or-valued fields; a key
  explicitly present but set to `undefined` is outside the model.
-/

namespace TVDb

/-- JS truthiness of a nullable string: `null`/`undefined` and `""` are falsy. -/
def jsTruthyStr : Option String → Bool
  | none => false
  | some s => !(s == "")

/-- JS `a || b` for a nullable string `a` and a string default `b`. -/
def jsOrStr (a : Option String) (b : String) : String :=
  match a with
  | none => b
  | some s => if s == "" then b else s

/-- Header map of a request, as an association list (one entry per name). -/
abbrev HeaderMap := List (String × String)

/-- Write a header: replace the entry if the name is present, else append. -/
def setAssoc : HeaderMap → String → String → HeaderMap
  | [], n, v => [(n, v)]
  | (n', v') :: rest, n, v =>
    if n' = n then (n, v) :: rest else (n', v') :: setAssoc rest n v

/-- Read a header by name. -/
def getAssoc : HeaderMap → String → Option String
  | [], _ => none
  | (n', v') :: rest, n => if n' = n then some v' else getAssoc rest n

/-- A superagent request being built: its URL and its header map. -/
structure Request where
  url : String
  headers : HeaderMap
deriving DecidableEq

/-- `req.set(name, value)` of superagent. -/
def Request.setH (r : Request) (n v : String) : Request :=
  { r with headers := setAssoc r.headers n v }

/-- `req.header[name]` of superagent. -/
def Request.getH (r : Request) (n : String) : Option String :=
  getAssoc r.headers n

/-- `str.startsWith('/')` of JS, read off the first character. -/
def startsWithSlash (s : String) : Bool :=
  match s.toList with
  | '/' :: _ => true
  | _ => false

/-- Drop the leading run of slashes (the greedy tail of the regex). -/
def dropSlashes : List Char → List Char
  | '/' :: rest => dropSlashes rest
  | l => l

/-- One left-to-right pass of the global JS replace
`.replace(/([^:]\/)\/+/g, '$1')`: at each position, if a non-colon
character is followed by a slash and at least one more slash, keep the
character and one slash, drop the rest of the slash run, and resume
scanning after the match.  The fuel argument (initially the length of
the list) only makes the recursion structural; each step consumes at
least one character, so the fuel never runs out. -/
def collapseGo : Nat → List Char → List Char
  | _, [] => []
  | _, [c] => [c]
  | 0, c₁ :: c₂ :: rest => c₁ :: c₂ :: rest
  | fuel + 1, c₁ :: c₂ :: rest =>
    if c₁ ≠ ':' ∧ c₂ = '/' ∧ rest.head? = some '/' then
      c₁ :: c₂ :: collapseGo fuel (dropSlashes rest)
    else
      c₁ :: collapseGo fuel (c₂ :: rest)

/-- `s.replace(/([^:]\/)\/+/g, '$1')` of the base-url middleware. -/
def collapseSlashes (s : String) : String :=
  String.mk (collapseGo s.toList.length s.toList)

/-- `` `${url}/${req.url}`.replace(/([^:]\/)\/+/g, '$1') `` — the URL the
base-url middleware produces for a relative path. -/
def joinUrl (base path : String) : String :=
  collapseSlashes (base ++ "/" ++ path)

/-- Constructor middleware 1 (src/index.js:30-36): prefix relative URLs
with the configured base URL, collapsing duplicate slashes. -/
def baseUrlMw (base : String) (req : Request) : Request :=
  if startsWithSlash req.url then { req with url := joinUrl base req.url } else req

/-- Constructor middleware 2 (src/index.js:39-45): if a token is held
(truthy), set the `Authorization` header to `Bearer <token>`. -/
def tokenMw (token : Option String) (req : Request) : Request :=
  if jsTruthyStr token then
    req.setH "Authorization" ("Bearer " ++ token.getD "")
  else
    req

/-- Constructor middleware 3 (src/index.js:48-54): if a default language
is configured (truthy), set `Accept-Language` to the already-present
header value if truthy, else to the default. -/
def langMw (lang : Option String) (req : Request) : Request :=
  if jsTruthyStr lang then
    req.setH "Accept-Language" (jsOrStr (req.getH "Accept-Language") (lang.getD ""))
  else
    req

/-- `this.opts` of the client: construction-time defaults
(`shouldReturnFullResponse` defaults to `false`, `language` to `null`). -/
structure Opts where
  shouldReturnFullResponse : Bool
  language : Option String
deriving DecidableEq

/-- The mutable client instance: configured base URL, held token
(`this.token`, initially `null`), and construction-time options. -/
structure Client where
  url : String
  token : Option String
  opts : Opts
deriving DecidableEq

/-- `new TheTVDbClient({...})` with the constructor's defaults. -/
def newClient (url : String := "https://api.thetvdb.com/")
    (shouldReturnFullResponse : Bool := false)
    (language : Option String := none) : Client :=
  { url := url, token := none, opts := ⟨shouldReturnFullResponse, language⟩ }

/-- The request produced by `this.agent.get(path)` (or `.post`, `.head`):
superagent replays the agent's `use` defaults on the fresh request, in
installation order (base URL, token, language). -/
def agentRequest (c : Client) (path : String) : Request :=
  langMw c.opts.language (tokenMw c.token (baseUrlMw c.url { url := path, headers := [] }))

/-- A per-call options object; a `none` field is an absent key. -/
structure CallOpts where
  shouldReturnFullResponse : Option Bool := none
  language : Option String := none
deriving DecidableEq

/-- `const { shouldReturnFullResponse } = { ...this.opts, ...opts }`:
the per-call value when the key is present, else the constructor default. -/
def effSRFR (ctor : Opts) (opts : Option CallOpts) : Bool :=
  match opts with
  | none => ctor.shouldReturnFullResponse
  | some o =>
    match o.shouldReturnFullResponse with
    | some b => b
    | none => ctor.shouldReturnFullResponse

/-- `const { language } = { ...this.opts, ...opts }`. -/
def effLanguage (ctor : Opts) (opts : Option CallOpts) : Option String :=
  match opts with
  | none => ctor.language
  | some o =>
    match o.language with
    | some l => some l
    | none => ctor.language

/-- Body of the login response: `res.body.token` may be absent. -/
structure LoginBody where
  token : Option String
deriving DecidableEq

/-- Body of a data-carrying endpoint response: payload under `data`. -/
structure DataBody (δ : Type) where
  data : δ
deriving DecidableEq

/-- A transport response: decoded body and response headers. -/
structure Response (β : Type) where
  body : β
  headers : HeaderMap
deriving DecidableEq

/-- What `authenticate` returns on success: the full transport response,
or the (possibly absent) token. -/
inductive AuthRet where
  | full : Response LoginBody → AuthRet
  | tok : Option String → AuthRet
deriving DecidableEq

/-- `authenticate(opts)` (src/index.js:80-93): dispatch `POST /login`
(outcome supplied by the environment); on rejection the error propagates
before `this.token` is assigned; on success `this.token = res.body.token`,
then return the full response or the token per the effective
`shouldReturnFullResponse`. -/
def authenticate {ε : Type} (c : Client) (opts : Option CallOpts)
    (loginOutcome : Except ε (Response LoginBody)) : Except ε AuthRet × Client :=
  match loginOutcome with
  | .error e => (.error e, c)
  | .ok res =>
    let c' := { c with token := res.body.token }
    (.ok (if effSRFR c.opts opts then .full res else .tok c'.token), c')

/-- Transport environment of one `_doRequest` call: the outcome of the
(at most one) login dispatch, and of the first and second invocation of
the request factory. -/
structure ReqEnv (ε ρ : Type) where
  login : Except ε (Response LoginBody)
  first : Except ε ρ
  second : Except ε ρ

/-- Observable outcome of one `_doRequest` call: its result, the client
state afterwards, and how many times `authenticate` and the request
factory were invoked. -/
structure RunOut (ε ρ : Type) where
  result : Except ε ρ
  client : Client
  authCalls : Nat
  factoryCalls : Nat

/-- `_doRequest(makeRequest)` (src/index.js:102-114).  The source guard is
`if (!this.token)`; the branches are written here in the opposite order.
With a truthy token: try the factory; on success return its result; on
failure `await this.authenticate()` (whose rejection propagates) and
return the second factory invocation's outcome.  With a falsy token:
`await this.authenticate()` (whose rejection propagates), then return the
single factory invocation's outcome. -/
def doRequest {ε ρ : Type} (c : Client) (env : ReqEnv ε ρ) : RunOut ε ρ :=
  if jsTruthyStr c.token then
    match env.first with
    | .ok r => ⟨.ok r, c, 0, 1⟩
    | .error _ =>
      match authenticate c none env.login with
      | (.error e, c') => ⟨.error e, c', 1, 1⟩
      | (.ok _, c') => ⟨env.second, c', 1, 2⟩
  else
    match authenticate c none env.login with
    | (.error e, c') => ⟨.error e, c', 1, 0⟩
    | (.ok _, c') => ⟨env.first, c', 1, 1⟩

/-- Header writes chained by the endpoint method (or a caller) after the
request is created, applied left to right. -/
def applySets (r : Request) : HeaderMap → Request
  | [] => r
  | (n, v) :: rest => applySets (r.setH n v) rest

/-- The last value written for a name in a list of header writes. -/
def lastAssoc (sets : HeaderMap) (n : String) : Option String :=
  match sets with
  | [] => none
  | (n', v') :: rest =>
    match lastAssoc rest n with
    | some v => some v
    | none => if n' = n then some v' else none

/-- What a data-carrying endpoint method returns: the full transport
response, or the payload under `res.body.data`. -/
inductive GetRet (δ : Type) where
  | full : Response (DataBody δ) → GetRet δ
  | data : δ → GetRet δ
deriving DecidableEq

/-- What `getSerieHead` returns: the full response, or `res.headers`. -/
inductive HeadRet (δ : Type) where
  | full : Response (DataBody δ) → HeadRet δ
  | headers : HeaderMap → HeadRet δ
deriving DecidableEq

/-- `getLanguages(opts)` (src/index.js:124-133): resolve the effective
options, run `_doRequest`, and unwrap `res.body.data` unless the
effective `shouldReturnFullResponse` asks for the full response. -/
def getLanguages {ε δ : Type} (c : Client) (opts : Option CallOpts)
    (env : ReqEnv ε (Response (DataBody δ))) : Except ε (GetRet δ) × Client :=
  let srfr := effSRFR c.opts opts
  let out := doRequest c env
  (out.result.map (fun res => if srfr then .full res else .data res.body.data), out.client)

/-- The request descriptor built by `getSerie`'s factory
(src/index.js:223-225): `this.agent.get('/series/' + e(serieId))`
followed by `.set('Accept-Language', language || '')`.  Serie ids are
numbers, on which `encodeURIComponent` of the decimal string is the
identity. -/
def getSerieRequest (c : Client) (serieId : Nat) (opts : Option CallOpts) : Request :=
  (agentRequest c ("/series/" ++ toString serieId)).setH
    "Accept-Language" (jsOrStr (effLanguage c.opts opts) "")

/-- `getSerie(serieId, opts)` (src/index.js:215-228): result and
resulting client state. -/
def getSerie {ε δ : Type} (c : Client) (serieId : Nat) (opts : Option CallOpts)
    (env : ReqEnv ε (Response (DataBody δ))) : Except ε (GetRet δ) × Client :=
  let srfr := effSRFR c.opts opts
  let out := doRequest c env
  (out.result.map (fun res => if srfr then .full res else .data res.body.data), out.client)

/-- `getSerieHead(serieId, opts)` (src/index.js:240-253): like `getSerie`
but unwraps `res.headers` when not returning the full response. -/
def getSerieHead {ε δ : Type} (c : Client) (serieId : Nat) (opts : Option CallOpts)
    (env : ReqEnv ε (Response (DataBody δ))) : Except ε (HeadRet δ) × Client :=
  let srfr := effSRFR c.opts opts
  let out := doRequest c env
  (out.result.map (fun res => if srfr then .full res else .headers res.headers), out.client)

/-- A `fromTime`/`toTime` argument of `getUpdatedQuery`: a JS number, a
`Date` (carrying its `getTime()` value in milliseconds), or absent. -/
inductive TimeArg where
  | num : Rat → TimeArg
  | date : Int → TimeArg
  | undefVal : TimeArg
deriving DecidableEq

/-- A value placed in the query object: a number, a `Date` object, or
`undefined`. -/
inductive SentTime where
  | num : Rat → SentTime
  | date : Int → SentTime
  | undefVal : SentTime
deriving DecidableEq

/-- A JS number that may be `NaN` (`undefined / 1000`). -/
inductive JSNum where
  | nan : JSNum
  | val : Rat → JSNum
deriving DecidableEq

/-- `t?.getTime?.()`: the milliseconds of a `Date`; `undefined` when `t`
is absent (first `?.` short-circuits) or a plain number (a number has no
`getTime` method, so the second `?.` short-circuits). -/
def getTimeOpt : TimeArg → Option Int
  | .date ms => some ms
  | .num _ => none
  | .undefVal => none

/-- `x / 1000` on a possibly-undefined JS value: `undefined / 1000` is `NaN`. -/
def divByThousand : Option Int → JSNum
  | some ms => .val ((ms : Rat) / 1000)
  | none => .nan

/-- JS truthiness of a number: `NaN` and `0` are falsy. -/
def jsNumTruthy : JSNum → Bool
  | .nan => false
  | .val q => if q = 0 then false else true

/-- `(t?.getTime?.() / 1000) || t` — the value `getUpdatedQuery` places
into the query object for `fromTime` and `toTime`
(src/index.js:543-544). -/
def sentTime (t : TimeArg) : SentTime :=
  let d := divByThousand (getTimeOpt t)
  if jsNumTruthy d then
    match d with
    | .val q => .num q
    | .nan => .undefVal
  else
    match t with
    | .num q => .num q
    | .date ms => .date ms
    | .undefVal => .undefVal

/-- The query object sent by `getUpdatedQuery({ fromTime, toTime })`. -/
def getUpdatedQuerySent (fromTime toTime : TimeArg) : SentTime × SentTime :=
  (sentTime fromTime, sentTime toTime)

/-- `getUpdatedQuery(query, opts)` (src/index.js:534-548): result and
resulting client state (the sent query is `getUpdatedQuerySent`). -/
def getUpdatedQuery {ε δ : Type} (c : Client) (_fromTime _toTime : TimeArg)
    (opts : Option CallOpts) (env : ReqEnv ε (Response (DataBody δ))) :
    Except ε (GetRet δ) × Client :=
  let srfr := effSRFR c.opts opts
  let out := doRequest c env
  (out.result.map (fun res => if srfr then .full res else .data res.body.data), out.client)

theorem getAssoc_setAssoc (h : HeaderMap) (n v m : String) :
    getAssoc (setAssoc h n v) m = if n = m then some v else getAssoc h m := by
  induction h with
  | nil => simp [setAssoc, getAssoc]
  | cons p t ih =>
    obtain ⟨a, b⟩ := p
    by_cases han : a = n
    · subst han
      by_cases ham : a = m <;> simp [setAssoc, getAssoc, ham]
    · by_cases ham : a = m
      · subst ham
        have hnm : ¬ n = a := fun h => han h.symm
        simp [setAssoc, getAssoc, han, hnm]
      · simp [setAssoc, getAssoc, han, ham, ih]

theorem getH_setH (r : Request) (n v m : String) :
    (r.setH n v).getH m = if n = m then some v else r.getH m := by
  simp [Request.setH, Request.getH, getAssoc_setAssoc]

theorem getH_applySets (sets : HeaderMap) (r : Request) (n : String) :
    (applySets r sets).getH n =
      match lastAssoc sets n with
      | some v => some v
      | none => r.getH n := by
  induction sets generalizing r with
  | nil => simp [applySets, lastAssoc]
  | cons p t ih =>
    obtain ⟨a, b⟩ := p
    rw [applySets, ih]
    cases hl : lastAssoc t n with
    | some v => simp [lastAssoc, hl]
    | none =>
      simp only [lastAssoc, hl, getH_setH]
      by_cases h : a = n <;> simp [h]

theorem baseUrlMw_headers (base : String) (r : Request) :
    (baseUrlMw base r).headers = r.headers := by
  unfold baseUrlMw
  split <;> rfl

theorem agentRequest_auth (c : Client) (path : String) (t : String)
    (htok : c.token = some t) (hne : t ≠ "") :
    (agentRequest c path).getH "Authorization" = some ("Bearer " ++ t) := by
  unfold agentRequest langMw tokenMw
  have htr : jsTruthyStr c.token = true := by
    simp [jsTruthyStr, htok, hne]
  rw [htr]
  simp only [if_true, htok, Option.getD_some]
  split
  · rw [getH_setH]
    have : ¬ ("Accept-Language" = "Authorization") := by decide
    rw [if_neg this, getH_setH, if_pos rfl]
  · rw [getH_setH, if_pos rfl]

theorem doRequest_opts_eq {ε ρ : Type} (c : Client) (env : ReqEnv ε ρ) :
    (doRequest c env).client.opts = c.opts := by
  unfold doRequest authenticate
  split
  · cases env.first with
    | ok r => rfl
    | error e =>
      cases env.login with
      | error e' => rfl
      | ok res => rfl
  · cases env.login with
    | error e' => rfl
    | ok res => rfl

theorem doRequest_first_ok {ε ρ : Type} (c : Client) (env : ReqEnv ε ρ) (r : ρ)
    (htok : jsTruthyStr c.token = true) (hfst : env.first = .ok r) :
    doRequest c env = ⟨.ok r, c, 0, 1⟩ := by
  unfold doRequest
  rw [htok, hfst]
  simp

theorem getSerieRequest_accept_language (c : Client) (serieId : Nat)
    (opts : Option CallOpts) :
    (getSerieRequest c serieId opts).getH "Accept-Language" =
      some (jsOrStr (effLanguage c.opts opts) "") := by
  unfold getSerieRequest
  rw [getH_setH, if_pos rfl]

/-- **C1** (counterexample).  The claim states that whenever the first
factory invocation fails, the factory is invoked exactly once more and
the wrapper returns that second outcome.  In the run below a token is
held, the first invocation fails, and the `authenticate()` call made by
the wrapper itself fails: the factory is dispatched only once and the
wrapper propagates the authentication error, not a second factory
outcome. -/
theorem claim1_counterexample :
    (doRequest ⟨"https://api.thetvdb.com/", some "stale", ⟨false, none⟩⟩
      (⟨Except.error "login-rejected", Except.error "request-rejected",
        Except.ok 7⟩ : ReqEnv String Nat)).factoryCalls = 1 ∧
    (doRequest ⟨"https://api.thetvdb.com/", some "stale", ⟨false, none⟩⟩
      (⟨Except.error "login-rejected", Except.error "request-rejected",
        Except.ok 7⟩ : ReqEnv String Nat)).result = Except.error "login-rejected" ∧
    ¬ (doRequest ⟨"https://api.thetvdb.com/", some "stale", ⟨false, none⟩⟩
      (⟨Except.error "login-rejected", Except.error "request-rejected",
        Except.ok 7⟩ : ReqEnv String Nat)).factoryCalls = 2 :=
  ⟨rfl, rfl, by decide⟩

/-- **C1** (amended).  With a held (truthy) token and a failing first
factory invocation, `authenticate()` is called exactly once and at most
two factory dispatches happen; when that `authenticate()` call succeeds
the factory is invoked exactly once more and the wrapper returns that
second outcome (result or error); when `authenticate()` itself fails its
error propagates and the factory is not invoked again. -/
theorem claim1_retry_once_after_failure {ε ρ : Type} (c : Client) (env : ReqEnv ε ρ)
    (e : ε) (htok : jsTruthyStr c.token = true) (hfst : env.first = Except.error e) :
    (doRequest c env).authCalls = 1 ∧
    (doRequest c env).factoryCalls ≤ 2 ∧
    (∀ res, env.login = Except.ok res →
      (doRequest c env).factoryCalls = 2 ∧ (doRequest c env).result = env.second) ∧
    (∀ e', env.login = Except.error e' →
      (doRequest c env).factoryCalls = 1 ∧
        (doRequest c env).result = Except.error e') := by
  unfold doRequest
  rw [htok, hfst]
  cases hl : env.login with
  | ok res => simp [authenticate, hl]
  | error e' => simp [authenticate, hl]

/-- **C1** (witness): a concrete run with a held token, a failing first
attempt and a successful re-authentication. -/
theorem claim1_retry_once_after_failure_witness :
    (doRequest ⟨"https://api.thetvdb.com/", some "tok", ⟨false, none⟩⟩
      (⟨Except.ok ⟨⟨some "fresh"⟩, []⟩, Except.error "boom",
        Except.ok 5⟩ : ReqEnv String Nat)).authCalls = 1 ∧
    (doRequest ⟨"https://api.thetvdb.com/", some "tok", ⟨false, none⟩⟩
      (⟨Except.ok ⟨⟨some "fresh"⟩, []⟩, Except.error "boom",
        Except.ok 5⟩ : ReqEnv String Nat)).factoryCalls ≤ 2 ∧
    (∀ res, (⟨Except.ok ⟨⟨some "fresh"⟩, []⟩, Except.error "boom",
        Except.ok 5⟩ : ReqEnv String Nat).login = Except.ok res →
      (doRequest ⟨"https://api.thetvdb.com/", some "tok", ⟨false, none⟩⟩
        (⟨Except.ok ⟨⟨some "fresh"⟩, []⟩, Except.error "boom",
          Except.ok 5⟩ : ReqEnv String Nat)).factoryCalls = 2 ∧
      (doRequest ⟨"https://api.thetvdb.com/", some "tok", ⟨false, none⟩⟩
        (⟨Except.ok ⟨⟨some "fresh"⟩, []⟩, Except.error "boom",
          Except.ok 5⟩ : ReqEnv String Nat)).result =
        (⟨Except.ok ⟨⟨some "fresh"⟩, []⟩, Except.error "boom",
          Except.ok 5⟩ : ReqEnv String Nat).second) ∧
    (∀ e', (⟨Except.ok ⟨⟨some "fresh"⟩, []⟩, Except.error "boom",
        Except.ok 5⟩ : ReqEnv String Nat).login = Except.error e' →
      (doRequest ⟨"https://api.thetvdb.com/", some "tok", ⟨false, none⟩⟩
        (⟨Except.ok ⟨⟨some "fresh"⟩, []⟩, Except.error "boom",
          Except.ok 5⟩ : ReqEnv String Nat)).factoryCalls = 1 ∧
      (doRequest ⟨"https://api.thetvdb.com/", some "tok", ⟨false, none⟩⟩
        (⟨Except.ok ⟨⟨some "fresh"⟩, []⟩, Except.error "boom",
          Except.ok 5⟩ : ReqEnv String Nat)).result = Except.error e') :=
  claim1_retry_once_after_failure
    ⟨"https://api.thetvdb.com/", some "tok", ⟨false, none⟩⟩
    ⟨Except.ok ⟨⟨some "fresh"⟩, []⟩, Except.error "boom", Except.ok 5⟩
    "boom" (by decide) rfl

/-- **C2** (counterexample).  The claim states that on the no-token path
the request factory is invoked exactly once.  In the run below no token
is held and the `authenticate()` call fails: the factory is never
invoked and the authentication error propagates. -/
theorem claim2_counterexample :
    (doRequest ⟨"https://api.thetvdb.com/", none, ⟨false, none⟩⟩
      (⟨Except.error "login-rejected", Except.ok 3,
        Except.ok 3⟩ : ReqEnv String Nat)).factoryCalls = 0 ∧
    (doRequest ⟨"https://api.thetvdb.com/", none, ⟨false, none⟩⟩
      (⟨Except.error "login-rejected", Except.ok 3,
        Except.ok 3⟩ : ReqEnv String Nat)).result = Except.error "login-rejected" ∧
    ¬ (doRequest ⟨"https://api.thetvdb.com/", none, ⟨false, none⟩⟩
      (⟨Except.error "login-rejected", Except.ok 3,
        Except.ok 3⟩ : ReqEnv String Nat)).factoryCalls = 1 :=
  ⟨rfl, rfl, by decide⟩

/-- **C2** (amended).  With no (truthy) token held, `authenticate()` is
called exactly once and awaited before any factory invocation, and the
factory is dispatched at most once; when `authenticate()` succeeds the
factory is invoked exactly once and its outcome (result or error) is
returned with no retry; when `authenticate()` fails its error propagates
and the factory is never invoked. -/
theorem claim2_auth_first_single_attempt {ε ρ : Type} (c : Client) (env : ReqEnv ε ρ)
    (htok : jsTruthyStr c.token = false) :
    (doRequest c env).authCalls = 1 ∧
    (doRequest c env).factoryCalls ≤ 1 ∧
    (∀ res, env.login = Except.ok res →
      (doRequest c env).factoryCalls = 1 ∧ (doRequest c env).result = env.first) ∧
    (∀ e', env.login = Except.error e' →
      (doRequest c env).factoryCalls = 0 ∧
        (doRequest c env).result = Except.error e') := by
  unfold doRequest
  rw [htok]
  cases hl : env.login with
  | ok res => simp [authenticate, hl]
  | error e' => simp [authenticate, hl]

/-- **C2** (witness): a concrete run with no token, a successful
authentication and a single failing attempt that is not retried. -/
theorem claim2_auth_first_single_attempt_witness :
    (doRequest ⟨"https://api.thetvdb.com/", none, ⟨false, none⟩⟩
      (⟨Except.ok ⟨⟨some "fresh"⟩, []⟩, Except.error "boom",
        Except.ok 5⟩ : ReqEnv String Nat)).authCalls = 1 ∧
    (doRequest ⟨"https://api.thetvdb.com/", none, ⟨false, none⟩⟩
      (⟨Except.ok ⟨⟨some "fresh"⟩, []⟩, Except.error "boom",
        Except.ok 5⟩ : ReqEnv String Nat)).factoryCalls ≤ 1 ∧
    (∀ res, (⟨Except.ok ⟨⟨some "fresh"⟩, []⟩, Except.error "boom",
        Except.ok 5⟩ : ReqEnv String Nat).login = Except.ok res →
      (doRequest ⟨"https://api.thetvdb.com/", none, ⟨false, none⟩⟩
        (⟨Except.ok ⟨⟨some "fresh"⟩, []⟩, Except.error "boom",
          Except.ok 5⟩ : ReqEnv String Nat)).factoryCalls = 1 ∧
      (doRequest ⟨"https://api.thetvdb.com/", none, ⟨false, none⟩⟩
        (⟨Except.ok ⟨⟨some "fresh"⟩, []⟩, Except.error "boom",
          Except.ok 5⟩ : ReqEnv String Nat)).result =
        (⟨Except.ok ⟨⟨some "fresh"⟩, []⟩, Except.error "boom",
          Except.ok 5⟩ : ReqEnv String Nat).first) ∧
    (∀ e', (⟨Except.ok ⟨⟨some "fresh"⟩, []⟩, Except.error "boom",
        Except.ok 5⟩ : ReqEnv String Nat).login = Except.error e' →
      (doRequest ⟨"https://api.thetvdb.com/", none, ⟨false, none⟩⟩
        (⟨Except.ok ⟨⟨some "fresh"⟩, []⟩, Except.error "boom",
          Except.ok 5⟩ : ReqEnv String Nat)).factoryCalls = 0 ∧
      (doRequest ⟨"https://api.thetvdb.com/", none, ⟨false, none⟩⟩
        (⟨Except.ok ⟨⟨some "fresh"⟩, []⟩, Except.error "boom",
          Except.ok 5⟩ : ReqEnv String Nat)).result = Except.error e') :=
  claim2_auth_first_single_attempt
    ⟨"https://api.thetvdb.com/", none, ⟨false, none⟩⟩
    ⟨Except.ok ⟨⟨some "fresh"⟩, []⟩, Except.error "boom", Except.ok 5⟩
    (by decide)

/-- **C3**: with a held (truthy) token and a first factory invocation
that succeeds, the wrapper returns that first result, `authenticate()`
is never invoked, and the factory is dispatched exactly once. -/
theorem claim3_no_reauth_on_success {ε ρ : Type} (c : Client) (env : ReqEnv ε ρ)
    (r : ρ) (htok : jsTruthyStr c.token = true) (hfst : env.first = Except.ok r) :
    (doRequest c env).result = Except.ok r ∧
    (doRequest c env).authCalls = 0 ∧
    (doRequest c env).factoryCalls = 1 := by
  rw [doRequest_first_ok c env r htok hfst]
  exact ⟨rfl, rfl, rfl⟩

/-- **C3** (witness): a concrete successful first attempt under a held
token. -/
theorem claim3_no_reauth_on_success_witness :
    (doRequest ⟨"https://api.thetvdb.com/", some "tok", ⟨false, none⟩⟩
      (⟨Except.ok ⟨⟨some "fresh"⟩, []⟩, Except.ok 9,
        Except.ok 0⟩ : ReqEnv String Nat)).result = Except.ok 9 ∧
    (doRequest ⟨"https://api.thetvdb.com/", some "tok", ⟨false, none⟩⟩
      (⟨Except.ok ⟨⟨some "fresh"⟩, []⟩, Except.ok 9,
        Except.ok 0⟩ : ReqEnv String Nat)).authCalls = 0 ∧
    (doRequest ⟨"https://api.thetvdb.com/", some "tok", ⟨false, none⟩⟩
      (⟨Except.ok ⟨⟨some "fresh"⟩, []⟩, Except.ok 9,
        Except.ok 0⟩ : ReqEnv String Nat)).factoryCalls = 1 :=
  claim3_no_reauth_on_success
    ⟨"https://api.thetvdb.com/", some "tok", ⟨false, none⟩⟩
    ⟨Except.ok ⟨⟨some "fresh"⟩, []⟩, Except.ok 9, Except.ok 0⟩
    9 (by decide) rfl

/-- **C4**: in the request pipeline, with a held (truthy) token the
outgoing request carries `Authorization: Bearer <token>`; the agent's
`use` middleware runs when the request is created, so a caller that
explicitly writes an `Authorization` header (last write wins) has its
value preserved on the outgoing request. -/
theorem claim4_bearer_header_caller_wins (c : Client) (path : String) (t : String)
    (sets : HeaderMap) (htok : c.token = some t) (hne : t ≠ "") :
    (∀ v, lastAssoc sets "Authorization" = some v →
      (applySets (agentRequest c path) sets).getH "Authorization" = some v) ∧
    (lastAssoc sets "Authorization" = none →
      (applySets (agentRequest c path) sets).getH "Authorization" =
        some ("Bearer " ++ t)) := by
  constructor
  · intro v hv
    rw [getH_applySets, hv]
  · intro h0
    rw [getH_applySets, h0]
    exact agentRequest_auth c path t htok hne

/-- **C4** (witness): a caller-written `Authorization` header survives
the pipeline of a client holding a token. -/
theorem claim4_bearer_header_caller_wins_witness :
    (∀ v, lastAssoc [("Accept-Language", "fr"), ("Authorization", "Custom abc")]
        "Authorization" = some v →
      (applySets (agentRequest ⟨"https://api.example.com/", some "tok", ⟨false, some "en"⟩⟩
          "/series/1")
        [("Accept-Language", "fr"), ("Authorization", "Custom abc")]).getH
        "Authorization" = some v) ∧
    (lastAssoc [("Accept-Language", "fr"), ("Authorization", "Custom abc")]
        "Authorization" = none →
      (applySets (agentRequest ⟨"https://api.example.com/", some "tok", ⟨false, some "en"⟩⟩
          "/series/1")
        [("Accept-Language", "fr"), ("Authorization", "Custom abc")]).getH
        "Authorization" = some ("Bearer " ++ "tok")) :=
  claim4_bearer_header_caller_wins
    ⟨"https://api.example.com/", some "tok", ⟨false, some "en"⟩⟩
    "/series/1" "tok" [("Accept-Language", "fr"), ("Authorization", "Custom abc")]
    rfl (by decide)

/-- **C5**: `authenticate` on a rejected login propagates the error
unchanged and leaves the whole client state (including the token)
untouched, with no retry (the model dispatches a single login outcome);
on a successful login it stores `res.body.token` as the new token, keeps
the configuration, and returns the full response or the token according
to the effective `shouldReturnFullResponse` (per-call option over the
constructor default). -/
theorem claim5_authenticate_contract {ε : Type} (c : Client) (opts : Option CallOpts)
    (out : Except ε (Response LoginBody)) :
    (∀ e, out = Except.error e → authenticate c opts out = (Except.error e, c)) ∧
    (∀ res, out = Except.ok res →
      (authenticate c opts out).2.token = res.body.token ∧
      (authenticate c opts out).2.opts = c.opts ∧
      (authenticate c opts out).2.url = c.url ∧
      (effSRFR c.opts opts = true →
        (authenticate c opts out).1 = Except.ok (AuthRet.full res)) ∧
      (effSRFR c.opts opts = false →
        (authenticate c opts out).1 = Except.ok (AuthRet.tok res.body.token))) := by
  constructor
  · intro e he
    subst he
    rfl
  · intro res hres
    subst hres
    refine ⟨rfl, rfl, rfl, ?_, ?_⟩ <;> intro h <;> simp [authenticate, h]

/-- **C5** (witness): a failed and a successful login at concrete inputs,
with a per-call override of `shouldReturnFullResponse`. -/
theorem claim5_authenticate_contract_witness :
    ((∀ e, (Except.error "down" : Except String (Response LoginBody)) = Except.error e →
      authenticate ⟨"u", some "old", ⟨false, none⟩⟩ (some ⟨some true, none⟩)
        (Except.error "down") = (Except.error e, ⟨"u", some "old", ⟨false, none⟩⟩)) ∧
    (∀ res, (Except.error "down" : Except String (Response LoginBody)) = Except.ok res →
      (authenticate ⟨"u", some "old", ⟨false, none⟩⟩ (some ⟨some true, none⟩)
        (Except.error "down")).2.token = res.body.token ∧
      (authenticate ⟨"u", some "old", ⟨false, none⟩⟩ (some ⟨some true, none⟩)
        (Except.error "down")).2.opts = Opts.mk false none ∧
      (authenticate ⟨"u", some "old", ⟨false, none⟩⟩ (some ⟨some true, none⟩)
        (Except.error "down")).2.url = "u" ∧
      (effSRFR ⟨false, none⟩ (some ⟨some true, none⟩) = true →
        (authenticate ⟨"u", some "old", ⟨false, none⟩⟩ (some ⟨some true, none⟩)
          (Except.error "down")).1 = Except.ok (AuthRet.full res)) ∧
      (effSRFR ⟨false, none⟩ (some ⟨some true, none⟩) = false →
        (authenticate ⟨"u", some "old", ⟨false, none⟩⟩ (some ⟨some true, none⟩)
          (Except.error "down")).1 = Except.ok (AuthRet.tok res.body.token)))) ∧
    ((∀ e, (Except.ok ⟨⟨some "T"⟩, []⟩ : Except String (Response LoginBody)) = Except.error e →
      authenticate ⟨"u", some "old", ⟨false, none⟩⟩ none (Except.ok ⟨⟨some "T"⟩, []⟩ : Except String (Response LoginBody)) =
        (Except.error e, ⟨"u", some "old", ⟨false, none⟩⟩)) ∧
    (∀ res, (Except.ok ⟨⟨some "T"⟩, []⟩ : Except String (Response LoginBody)) = Except.ok res →
      (authenticate ⟨"u", some "old", ⟨false, none⟩⟩ none
        (Except.ok ⟨⟨some "T"⟩, []⟩ : Except String (Response LoginBody))).2.token = res.body.token ∧
      (authenticate ⟨"u", some "old", ⟨false, none⟩⟩ none
        (Except.ok ⟨⟨some "T"⟩, []⟩ : Except String (Response LoginBody))).2.opts = Opts.mk false none ∧
      (authenticate ⟨"u", some "old", ⟨false, none⟩⟩ none
        (Except.ok ⟨⟨some "T"⟩, []⟩ : Except String (Response LoginBody))).2.url = "u" ∧
      (effSRFR ⟨false, none⟩ none = true →
        (authenticate ⟨"u", some "old", ⟨false, none⟩⟩ none
          (Except.ok ⟨⟨some "T"⟩, []⟩ : Except String (Response LoginBody))).1 = Except.ok (AuthRet.full res)) ∧
      (effSRFR ⟨false, none⟩ none = false →
        (authenticate ⟨"u", some "old", ⟨false, none⟩⟩ none
          (Except.ok ⟨⟨some "T"⟩, []⟩ : Except String (Response LoginBody))).1 = Except.ok (AuthRet.tok res.body.token)))) :=
  ⟨claim5_authenticate_contract ⟨"u", some "old", ⟨false, none⟩⟩
      (some ⟨some true, none⟩) (Except.error "down"),
    claim5_authenticate_contract ⟨"u", some "old", ⟨false, none⟩⟩
      none (Except.ok ⟨⟨some "T"⟩, []⟩ : Except String (Response LoginBody))⟩

/-- **C6**: the effective value of each per-call option (`language`,
`shouldReturnFullResponse`) is the per-call value when provided, else
the constructor default; the request `getSerie` builds carries the
effective language; a call never mutates the stored configuration, so a
subsequent call without the option falls back to the constructor
default. -/
theorem claim6_effective_options_precedence {ε δ : Type} (c : Client) (serieId : Nat)
    (opts : Option CallOpts) (env : ReqEnv ε (Response (DataBody δ))) :
    (∀ o l, opts = some o → o.language = some l →
      effLanguage c.opts opts = some l) ∧
    (∀ o b, opts = some o → o.shouldReturnFullResponse = some b →
      effSRFR c.opts opts = b) ∧
    (∀ o, opts = some o → o.language = none →
      effLanguage c.opts opts = c.opts.language) ∧
    (∀ o, opts = some o → o.shouldReturnFullResponse = none →
      effSRFR c.opts opts = c.opts.shouldReturnFullResponse) ∧
    (opts = none →
      effLanguage c.opts opts = c.opts.language ∧
      effSRFR c.opts opts = c.opts.shouldReturnFullResponse) ∧
    (getSerieRequest c serieId opts).getH "Accept-Language" =
      some (jsOrStr (effLanguage c.opts opts) "") ∧
    (getSerie c serieId opts env).2.opts = c.opts ∧
    (getSerieRequest (getSerie c serieId opts env).2 serieId none).getH
      "Accept-Language" = some (jsOrStr c.opts.language "") := by
  have hopts : (getSerie c serieId opts env).2.opts = c.opts :=
    doRequest_opts_eq c env
  refine ⟨?_, ?_, ?_, ?_, ?_, ?_, hopts, ?_⟩
  · intro o l ho hl
    subst ho
    simp [effLanguage, hl]
  · intro o b ho hb
    subst ho
    simp [effSRFR, hb]
  · intro o ho hl
    subst ho
    simp [effLanguage, hl]
  · intro o ho hb
    subst ho
    simp [effSRFR, hb]
  · intro h
    subst h
    exact ⟨rfl, rfl⟩
  · exact getSerieRequest_accept_language c serieId opts
  · rw [getSerieRequest_accept_language]
    show some (jsOrStr (effLanguage (getSerie c serieId opts env).2.opts none) "") = _
    rw [hopts]
    rfl

/-- **C6** (witness): a per-call `language`/`shouldReturnFullResponse`
override on a client constructed with `language: 'en'`. -/
theorem claim6_effective_options_precedence_witness :
    (∀ o l, (some ⟨some true, some "fr"⟩ : Option CallOpts) = some o →
      o.language = some l →
      effLanguage ⟨false, some "en"⟩ (some ⟨some true, some "fr"⟩) = some l) ∧
    (∀ o b, (some ⟨some true, some "fr"⟩ : Option CallOpts) = some o →
      o.shouldReturnFullResponse = some b →
      effSRFR ⟨false, some "en"⟩ (some ⟨some true, some "fr"⟩) = b) ∧
    (∀ o, (some ⟨some true, some "fr"⟩ : Option CallOpts) = some o →
      o.language = none →
      effLanguage ⟨false, some "en"⟩ (some ⟨some true, some "fr"⟩) =
        Opts.language ⟨false, some "en"⟩) ∧
    (∀ o, (some ⟨some true, some "fr"⟩ : Option CallOpts) = some o →
      o.shouldReturnFullResponse = none →
      effSRFR ⟨false, some "en"⟩ (some ⟨some true, some "fr"⟩) =
        Opts.shouldReturnFullResponse ⟨false, some "en"⟩) ∧
    ((some ⟨some true, some "fr"⟩ : Option CallOpts) = none →
      effLanguage ⟨false, some "en"⟩ (some ⟨some true, some "fr"⟩) =
        Opts.language ⟨false, some "en"⟩ ∧
      effSRFR ⟨false, some "en"⟩ (some ⟨some true, some "fr"⟩) =
        Opts.shouldReturnFullResponse ⟨false, some "en"⟩) ∧
    (getSerieRequest ⟨"https://api.example.com/", some "tok", ⟨false, some "en"⟩⟩ 121361
        (some ⟨some true, some "fr"⟩)).getH "Accept-Language" =
      some (jsOrStr (effLanguage ⟨false, some "en"⟩ (some ⟨some true, some "fr"⟩)) "") ∧
    (getSerie ⟨"https://api.example.com/", some "tok", ⟨false, some "en"⟩⟩ 121361
        (some ⟨some true, some "fr"⟩)
        (⟨Except.ok ⟨⟨some "fresh"⟩, []⟩, Except.ok ⟨⟨0⟩, []⟩,
          Except.ok ⟨⟨0⟩, []⟩⟩ : ReqEnv String (Response (DataBody Nat)))).2.opts =
      Opts.mk false (some "en") ∧
    (getSerieRequest
        (getSerie ⟨"https://api.example.com/", some "tok", ⟨false, some "en"⟩⟩ 121361
          (some ⟨some true, some "fr"⟩)
          (⟨Except.ok ⟨⟨some "fresh"⟩, []⟩, Except.ok ⟨⟨0⟩, []⟩,
            Except.ok ⟨⟨0⟩, []⟩⟩ : ReqEnv String (Response (DataBody Nat)))).2
        121361 none).getH "Accept-Language" =
      some (jsOrStr (Opts.language ⟨false, some "en"⟩) "") :=
  claim6_effective_options_precedence
    ⟨"https://api.example.com/", some "tok", ⟨false, some "en"⟩⟩ 121361
    (some ⟨some true, some "fr"⟩)
    ⟨Except.ok ⟨⟨some "fresh"⟩, []⟩, Except.ok ⟨⟨0⟩, []⟩, Except.ok ⟨⟨0⟩, []⟩⟩

/-- **C7**: base-URL resolution: a relative target path is prefixed with
the configured base URL with duplicate separators collapsed — joining
`/series/1` to the base `https://api.example.com/` yields exactly
`https://api.example.com/series/1` — and an absolute path is left
untouched. -/
theorem claim7_base_url_join (c : Client) (req : Request) :
    joinUrl "https://api.example.com/" "/series/1" =
      "https://api.example.com/series/1" ∧
    (startsWithSlash req.url = true →
      baseUrlMw c.url req = { req with url := joinUrl c.url req.url }) ∧
    (startsWithSlash req.url = false → baseUrlMw c.url req = req) := by
  refine ⟨by decide, ?_, ?_⟩
  · intro h
    simp [baseUrlMw, h]
  · intro h
    simp [baseUrlMw, h]

/-- **C7** (witness): the pipeline applied to the relative path
`/series/1` of a client with base `https://api.example.com/`. -/
theorem claim7_base_url_join_witness :
    joinUrl "https://api.example.com/" "/series/1" =
      "https://api.example.com/series/1" ∧
    (startsWithSlash (Request.url ⟨"/series/1", []⟩) = true →
      baseUrlMw (Client.url ⟨"https://api.example.com/", none, ⟨false, none⟩⟩)
          ⟨"/series/1", []⟩ =
        { Request.mk "/series/1" [] with
            url := joinUrl (Client.url ⟨"https://api.example.com/", none, ⟨false, none⟩⟩)
              (Request.url ⟨"/series/1", []⟩) }) ∧
    (startsWithSlash (Request.url ⟨"/series/1", []⟩) = false →
      baseUrlMw (Client.url ⟨"https://api.example.com/", none, ⟨false, none⟩⟩)
          ⟨"/series/1", []⟩ = ⟨"/series/1", []⟩) :=
  claim7_base_url_join ⟨"https://api.example.com/", none, ⟨false, none⟩⟩
    ⟨"/series/1", []⟩

/-- **C8**: with a held token and a successful first attempt, the
embedded endpoint methods return the payload under `res.body.data`
(`res.headers` for `getSerieHead`) when the effective
`shouldReturnFullResponse` is false, and the untouched full transport
response when it is true. -/
theorem claim8_unwrap_full_response {ε δ : Type} (c : Client) (serieId : Nat)
    (opts : Option CallOpts) (env : ReqEnv ε (Response (DataBody δ)))
    (res : Response (DataBody δ))
    (htok : jsTruthyStr c.token = true) (hfst : env.first = Except.ok res) :
    (effSRFR c.opts opts = false →
      (getLanguages c opts env).1 = Except.ok (GetRet.data res.body.data) ∧
      (getSerie c serieId opts env).1 = Except.ok (GetRet.data res.body.data) ∧
      (getSerieHead c serieId opts env).1 = Except.ok (HeadRet.headers res.headers)) ∧
    (effSRFR c.opts opts = true →
      (getLanguages c opts env).1 = Except.ok (GetRet.full res) ∧
      (getSerie c serieId opts env).1 = Except.ok (GetRet.full res) ∧
      (getSerieHead c serieId opts env).1 = Except.ok (HeadRet.full res)) := by
  have hdo := doRequest_first_ok c env res htok hfst
  constructor <;> intro h <;>
    exact ⟨by simp [getLanguages, hdo, h, Except.map], by simp [getSerie, hdo, h, Except.map],
      by simp [getSerieHead, hdo, h, Except.map]⟩

/-- **C8** (witness): both polarities of `shouldReturnFullResponse` at a
concrete response, via a per-call override on one side. -/
theorem claim8_unwrap_full_response_witness :
    ((effSRFR (Opts.mk false none) none = false →
      (getLanguages ⟨"u", some "tok", ⟨false, none⟩⟩ none
        (⟨Except.ok ⟨⟨some "t"⟩, []⟩, Except.ok ⟨⟨42⟩, [("date", "d")]⟩,
          Except.ok ⟨⟨0⟩, []⟩⟩ : ReqEnv String (Response (DataBody Nat)))).1 =
        Except.ok (GetRet.data 42) ∧
      (getSerie ⟨"u", some "tok", ⟨false, none⟩⟩ 121361 none
        (⟨Except.ok ⟨⟨some "t"⟩, []⟩, Except.ok ⟨⟨42⟩, [("date", "d")]⟩,
          Except.ok ⟨⟨0⟩, []⟩⟩ : ReqEnv String (Response (DataBody Nat)))).1 =
        Except.ok (GetRet.data 42) ∧
      (getSerieHead ⟨"u", some "tok", ⟨false, none⟩⟩ 121361 none
        (⟨Except.ok ⟨⟨some "t"⟩, []⟩, Except.ok ⟨⟨42⟩, [("date", "d")]⟩,
          Except.ok ⟨⟨0⟩, []⟩⟩ : ReqEnv String (Response (DataBody Nat)))).1 =
        Except.ok (HeadRet.headers [("date", "d")])) ∧
    (effSRFR (Opts.mk false none) none = true →
      (getLanguages ⟨"u", some "tok", ⟨false, none⟩⟩ none
        (⟨Except.ok ⟨⟨some "t"⟩, []⟩, Except.ok ⟨⟨42⟩, [("date", "d")]⟩,
          Except.ok ⟨⟨0⟩, []⟩⟩ : ReqEnv String (Response (DataBody Nat)))).1 =
        Except.ok (GetRet.full ⟨⟨42⟩, [("date", "d")]⟩) ∧
      (getSerie ⟨"u", some "tok", ⟨false, none⟩⟩ 121361 none
        (⟨Except.ok ⟨⟨some "t"⟩, []⟩, Except.ok ⟨⟨42⟩, [("date", "d")]⟩,
          Except.ok ⟨⟨0⟩, []⟩⟩ : ReqEnv String (Response (DataBody Nat)))).1 =
        Except.ok (GetRet.full ⟨⟨42⟩, [("date", "d")]⟩) ∧
      (getSerieHead ⟨"u", some "tok", ⟨false, none⟩⟩ 121361 none
        (⟨Except.ok ⟨⟨some "t"⟩, []⟩, Except.ok ⟨⟨42⟩, [("date", "d")]⟩,
          Except.ok ⟨⟨0⟩, []⟩⟩ : ReqEnv String (Response (DataBody Nat)))).1 =
        Except.ok (HeadRet.full ⟨⟨42⟩, [("date", "d")]⟩))) ∧
    ((effSRFR (Opts.mk false none) (some ⟨some true, none⟩) = false →
      (getLanguages ⟨"u", some "tok", ⟨false, none⟩⟩ (some ⟨some true, none⟩)
        (⟨Except.ok ⟨⟨some "t"⟩, []⟩, Except.ok ⟨⟨42⟩, [("date", "d")]⟩,
          Except.ok ⟨⟨0⟩, []⟩⟩ : ReqEnv String (Response (DataBody Nat)))).1 =
        Except.ok (GetRet.data 42) ∧
      (getSerie ⟨"u", some "tok", ⟨false, none⟩⟩ 121361 (some ⟨some true, none⟩)
        (⟨Except.ok ⟨⟨some "t"⟩, []⟩, Except.ok ⟨⟨42⟩, [("date", "d")]⟩,
          Except.ok ⟨⟨0⟩, []⟩⟩ : ReqEnv String (Response (DataBody Nat)))).1 =
        Except.ok (GetRet.data 42) ∧
      (getSerieHead ⟨"u", some "tok", ⟨false, none⟩⟩ 121361 (some ⟨some true, none⟩)
        (⟨Except.ok ⟨⟨some "t"⟩, []⟩, Except.ok ⟨⟨42⟩, [("date", "d")]⟩,
          Except.ok ⟨⟨0⟩, []⟩⟩ : ReqEnv String (Response (DataBody Nat)))).1 =
        Except.ok (HeadRet.headers [("date", "d")])) ∧
    (effSRFR (Opts.mk false none) (some ⟨some true, none⟩) = true →
      (getLanguages ⟨"u", some "tok", ⟨false, none⟩⟩ (some ⟨some true, none⟩)
        (⟨Except.ok ⟨⟨some "t"⟩, []⟩, Except.ok ⟨⟨42⟩, [("date", "d")]⟩,
          Except.ok ⟨⟨0⟩, []⟩⟩ : ReqEnv String (Response (DataBody Nat)))).1 =
        Except.ok (GetRet.full ⟨⟨42⟩, [("date", "d")]⟩) ∧
      (getSerie ⟨"u", some "tok", ⟨false, none⟩⟩ 121361 (some ⟨some true, none⟩)
        (⟨Except.ok ⟨⟨some "t"⟩, []⟩, Except.ok ⟨⟨42⟩, [("date", "d")]⟩,
          Except.ok ⟨⟨0⟩, []⟩⟩ : ReqEnv String (Response (DataBody Nat)))).1 =
        Except.ok (GetRet.full ⟨⟨42⟩, [("date", "d")]⟩) ∧
      (getSerieHead ⟨"u", some "tok", ⟨false, none⟩⟩ 121361 (some ⟨some true, none⟩)
        (⟨Except.ok ⟨⟨some "t"⟩, []⟩, Except.ok ⟨⟨42⟩, [("date", "d")]⟩,
          Except.ok ⟨⟨0⟩, []⟩⟩ : ReqEnv String (Response (DataBody Nat)))).1 =
        Except.ok (HeadRet.full ⟨⟨42⟩, [("date", "d")]⟩))) :=
  ⟨claim8_unwrap_full_response ⟨"u", some "tok", ⟨false, none⟩⟩ 121361 none
      ⟨Except.ok ⟨⟨some "t"⟩, []⟩, Except.ok ⟨⟨42⟩, [("date", "d")]⟩, Except.ok ⟨⟨0⟩, []⟩⟩
      ⟨⟨42⟩, [("date", "d")]⟩ (by decide) rfl,
    claim8_unwrap_full_response ⟨"u", some "tok", ⟨false, none⟩⟩ 121361
      (some ⟨some true, none⟩)
      ⟨Except.ok ⟨⟨some "t"⟩, []⟩, Except.ok ⟨⟨42⟩, [("date", "d")]⟩, Except.ok ⟨⟨0⟩, []⟩⟩
      ⟨⟨42⟩, [("date", "d")]⟩ (by decide) rfl⟩

/-- **C9**: after a successful `authenticate` the stored token is exactly
`res.body.token`; when the successful login body carries no `token`
field, the held token is absent, so the next wrapper call takes the
no-token path (it calls `authenticate` and dispatches the factory at
most once) and the token middleware attaches no `Authorization`
header. -/
theorem claim9_token_from_login_body {ε ρ : Type} (c : Client)
    (opts : Option CallOpts) (res : Response LoginBody) (env : ReqEnv ε ρ)
    (req : Request) :
    (authenticate c opts (Except.ok res : Except ε (Response LoginBody))).2.token =
      res.body.token ∧
    (res.body.token = none →
      (doRequest (authenticate c opts
        (Except.ok res : Except ε (Response LoginBody))).2 env).authCalls = 1 ∧
      (doRequest (authenticate c opts
        (Except.ok res : Except ε (Response LoginBody))).2 env).factoryCalls ≤ 1 ∧
      tokenMw (authenticate c opts
        (Except.ok res : Except ε (Response LoginBody))).2.token req = req) := by
  have htk : (authenticate c opts
      (Except.ok res : Except ε (Response LoginBody))).2.token = res.body.token := rfl
  refine ⟨htk, ?_⟩
  intro h
  have hfalse : jsTruthyStr (authenticate c opts
      (Except.ok res : Except ε (Response LoginBody))).2.token = false := by
    rw [htk, h]
    rfl
  refine ⟨?_, ?_, ?_⟩
  · unfold doRequest
    rw [hfalse]
    cases hl : env.login <;> simp [authenticate]
  · unfold doRequest
    rw [hfalse]
    cases hl : env.login <;> simp [authenticate]
  · rw [htk, h]
    rfl

/-- **C9** (witness): a 2xx login response whose body has no `token`
field, followed by another wrapper call. -/
theorem claim9_token_from_login_body_witness :
    (authenticate ⟨"u", some "old", ⟨false, none⟩⟩ none
      (Except.ok ⟨⟨none⟩, []⟩ : Except String (Response LoginBody))).2.token =
      LoginBody.token ⟨none⟩ ∧
    (LoginBody.token ⟨none⟩ = none →
      (doRequest (authenticate ⟨"u", some "old", ⟨false, none⟩⟩ none
        (Except.ok ⟨⟨none⟩, []⟩ : Except String (Response LoginBody))).2
        (⟨Except.ok ⟨⟨some "t2"⟩, []⟩, Except.ok 1,
          Except.ok 2⟩ : ReqEnv String Nat)).authCalls = 1 ∧
      (doRequest (authenticate ⟨"u", some "old", ⟨false, none⟩⟩ none
        (Except.ok ⟨⟨none⟩, []⟩ : Except String (Response LoginBody))).2
        (⟨Except.ok ⟨⟨some "t2"⟩, []⟩, Except.ok 1,
          Except.ok 2⟩ : ReqEnv String Nat)).factoryCalls ≤ 1 ∧
      tokenMw (authenticate ⟨"u", some "old", ⟨false, none⟩⟩ none
        (Except.ok ⟨⟨none⟩, []⟩ : Except String (Response LoginBody))).2.token
        ⟨"/series/1", []⟩ = ⟨"/series/1", []⟩) :=
  claim9_token_from_login_body ⟨"u", some "old", ⟨false, none⟩⟩ none ⟨⟨none⟩, []⟩
    ⟨Except.ok ⟨⟨some "t2"⟩, []⟩, Except.ok 1, Except.ok 2⟩ ⟨"/series/1", []⟩

/-- **C10**: the query values sent by `getUpdatedQuery`: a `Date` whose
`getTime()` is nonzero is converted to epoch seconds (`getTime()`
divided by 1000), a plain number is sent unchanged, and a `Date` at
exactly the epoch (`getTime() === 0`) makes the converted value falsy,
so the `Date` object itself is sent instead of the number `0`. -/
theorem claim10_updated_query_time_conversion (fromTime toTime : TimeArg) :
    (∀ ms : Int, ms ≠ 0 →
      sentTime (TimeArg.date ms) = SentTime.num ((ms : Rat) / 1000)) ∧
    (∀ q : Rat, sentTime (TimeArg.num q) = SentTime.num q) ∧
    sentTime (TimeArg.date 0) = SentTime.date 0 ∧
    getUpdatedQuerySent fromTime toTime = (sentTime fromTime, sentTime toTime) := by
  refine ⟨?_, ?_, by simp [sentTime, getTimeOpt, divByThousand, jsNumTruthy], rfl⟩
  · intro ms hms
    have hq : ((ms : Rat) / 1000) ≠ 0 :=
      div_ne_zero (Int.cast_ne_zero.mpr hms) (by norm_num)
    simp [sentTime, getTimeOpt, divByThousand, jsNumTruthy, hq]
  · intro q
    simp [sentTime, getTimeOpt, divByThousand, jsNumTruthy]

/-- **C10** (witness): one day past the epoch converts to 86400 seconds,
a plain number passes through, and the epoch `Date` is sent as-is. -/
theorem claim10_updated_query_time_conversion_witness :
    sentTime (TimeArg.date 86400000) = SentTime.num (((86400000 : Int) : Rat) / 1000) ∧
    sentTime (TimeArg.num 5) = SentTime.num 5 ∧
    sentTime (TimeArg.date 0) = SentTime.date 0 ∧
    getUpdatedQuerySent (TimeArg.date 0) (TimeArg.num 5) =
      (sentTime (TimeArg.date 0), sentTime (TimeArg.num 5)) :=
  ⟨(claim10_updated_query_time_conversion (TimeArg.date 0) (TimeArg.num 5)).1
      86400000 (by norm_num),
    (claim10_updated_query_time_conversion (TimeArg.date 0) (TimeArg.num 5)).2.1 5,
    (claim10_updated_query_time_conversion (TimeArg.date 0) (TimeArg.num 5)).2.2.1,
    (claim10_updated_query_time_conversion (TimeArg.date 0) (TimeArg.num 5)).2.2.2⟩

end TVDb
